import Mathlib

/-!
Shallow embedding of `transcribe_demo.py` (real-time Whisper transcription demo)
and verification of its specification claims.

Conventions of the embedding:
* Python `bytes` values are `List UInt8`; the audio chunk queue is a `List Bytes`
  drained from the front (FIFO).
* Wall-clock timestamps and the float timeouts are rationals (`ℚ`); the code only
  compares them, never does float-specific arithmetic on them.
* Fallible Python calls (raising) are `Except String _`; `None` is `Option.none`.
* Side-effecting calls (subprocess, print, file writes) are modelled by returning
  the effect payloads explicitly.
-/

/-- Python `bytes`: a raw audio byte buffer. -/
abbrev Bytes := List UInt8

/-- Constant `DEFAULT_ENERGY_THRESHOLD = 1000` from `transcribe_demo.py`. -/
def DEFAULT_ENERGY_THRESHOLD : ℤ := 1000

/-- Constant `DEFAULT_RECORD_TIMEOUT = 2.0` from `transcribe_demo.py`. -/
def DEFAULT_RECORD_TIMEOUT : ℚ := 2

/-- Constant `DEFAULT_PHRASE_TIMEOUT = 3.0` from `transcribe_demo.py`. -/
def DEFAULT_PHRASE_TIMEOUT : ℚ := 3

/-- Constant `CONSOLE_CLEAR_FALLBACK_LINES = 50` from `transcribe_demo.py`. -/
def CONSOLE_CLEAR_FALLBACK_LINES : ℕ := 50

/-- The validated command-line options that `validate_arguments` inspects:
`--energy_threshold` is an `int`, `--record_timeout` and `--phrase_timeout` floats. -/
structure Args where
  energy_threshold : ℤ
  record_timeout : ℚ
  phrase_timeout : ℚ

/-- Embedding of `validate_arguments` (transcribe_demo.py lines 48-55).
The Python function raises `ValueError` with a message; raising is `Except.error`
carrying that message, returning normally is `Except.ok ()`.  The checks are
performed in source order, so the first failing check determines the message. -/
def validate_arguments (args : Args) : Except String Unit :=
  if args.energy_threshold < 0 then
    Except.error "Energy threshold must be non-negative"
  else if args.record_timeout ≤ 0 then
    Except.error "Record timeout must be positive"
  else if args.phrase_timeout ≤ 0 then
    Except.error "Phrase timeout must be positive"
  else
    Except.ok ()

/-- Proposition that a raised error's message contains `sub` as a substring
(substring containment stated on the underlying character lists). -/
def contains_message (r : Except String Unit) (sub : String) : Prop :=
  ∃ m, r = Except.error m ∧ sub.data <:+: m.data

/-- Embedding of the `while not data_queue.empty(): audio_data_list.append(data_queue.get_nowait())`
loop of `process_audio_queue` (lines 99-103): repeatedly pop the front of the queue,
appending it to the accumulator, until the queue is empty.  Returns the accumulated
chunk list and the remaining queue. -/
def drainLoop : List Bytes → List Bytes → List Bytes × List Bytes
  | [], acc => (acc, [])
  | c :: rest, acc => drainLoop rest (acc ++ [c])

/-- Embedding of `process_audio_queue` (lines 96-105): drain everything currently
queued, then return `b''.join(audio_data_list) if audio_data_list else None`
(byte-string concatenation is `List.flatten` on the chunk list).
The second component is the state of the queue after the call (the Python queue
is mutated in place). -/
def process_audio_queue (data_queue : List Bytes) : Option Bytes × List Bytes :=
  let res := drainLoop data_queue []
  let audio_data_list := res.1
  (if audio_data_list.isEmpty then none else some audio_data_list.flatten, res.2)

/-- Embedding of Python's `str.strip()` with no arguments: remove leading and
trailing whitespace characters.  (`Char.isWhitespace` covers space, tab, CR and
LF, the whitespace that occurs in this program's data.) -/
def python_strip (s : String) : String :=
  String.mk (((s.data.dropWhile Char.isWhitespace).reverse.dropWhile Char.isWhitespace).reverse)

/-- Embedding of the model-name resolution in `load_whisper_model` (lines 81-85):
`model = model_name; if model_name != "large" and not non_english: model += ".en"`.
The actual model loading is an external library call; only the name computation is
logic of this repository. -/
def load_whisper_model_name (model_name : String) (non_english : Bool) : String :=
  if model_name ≠ "large" ∧ non_english = false then model_name ++ ".en" else model_name

/-- Effects performed by one call to `clear_console` (lines 36-45): the argv of the
subprocess command it attempts (`cls` on Windows, `clear` elsewhere), and the list
of arguments of the `print` calls it makes.  When the subprocess succeeds nothing
is printed; when it raises, the single fallback call
`print('\n' * CONSOLE_CLEAR_FALLBACK_LINES)` runs. -/
structure ConsoleEffects where
  command_argv : List String
  print_calls : List String
deriving DecidableEq

/-- Embedding of `clear_console` (lines 36-45), parameterised by the platform test
`os.name == 'nt'` and by whether the subprocess call succeeds. -/
def clear_console (isWindowsNT : Bool) (clearCommandOk : Bool) : ConsoleEffects :=
  { command_argv := if isWindowsNT then ["cls"] else ["clear"]
    print_calls :=
      if clearCommandOk then []
      else [String.mk (List.replicate CONSOLE_CLEAR_FALLBACK_LINES (Char.ofNat 10))] }

/-- State owned by the main loop of `main` (lines 156-158 and 205-265):
the nullable `phrase_time` timestamp, the audio chunk queue, the transcript line
list, and a count of the per-iteration errors logged by the
`except Exception: logging.error(...); continue` handler. -/
structure LoopState where
  phrase_time : Option ℚ
  data_queue : List Bytes
  transcription : List String
  logged_errors : ℕ
deriving DecidableEq

/-- Initial loop state from lines 156-158: `phrase_time = None`,
`data_queue = Queue()`, `transcription = ['']`. -/
def initialLoopState : LoopState :=
  { phrase_time := none, data_queue := [], transcription := [""], logged_errors := 0 }

/-- Embedding of the boundary decision of lines 212-216:
`phrase_complete = False; if phrase_time and now - phrase_time > timedelta(seconds=phrase_timeout): phrase_complete = True`.
A `datetime` is always truthy, so `if phrase_time` tests `phrase_time is not None`. -/
def phrase_complete_decision (phrase_time : Option ℚ) (now phrase_timeout : ℚ) : Bool :=
  match phrase_time with
  | none => false
  | some t => decide (now - t > phrase_timeout)

/-- Modelled from the spec's words, NOT from the source, for comparison with
`phrase_complete_decision`: "boundary iff previous-timestamp is absent or
elapsed > gap-threshold". -/
def claimed_phrase_boundary (phrase_time : Option ℚ) (now phrase_timeout : ℚ) : Bool :=
  match phrase_time with
  | none => true
  | some t => decide (now - t > phrase_timeout)

/-- Embedding of one iteration of the main loop body (lines 206-265), with the
external calls as parameters: `transcribe` is the Whisper model call on the
drained bytes (its `Except.error` case is the `except Exception` path of line
263), and `format` is the optional confidence-suffix formatting of lines
236-239 applied to the stripped non-empty text.  The queue-empty branch and
every `continue` path return the state reached at that point; sleeping has no
state effect.  File and console output are modelled separately
(`display_transcription` reads but never mutates the transcript). -/
def mainLoopStep (phrase_timeout : ℚ)
    (transcribe : Bytes → Except String String)
    (format : String → String)
    (now : ℚ) (s : LoopState) : LoopState :=
  if s.data_queue.isEmpty then
    s
  else
    let complete := phrase_complete_decision s.phrase_time now phrase_timeout
    let res := process_audio_queue s.data_queue
    let s1 : LoopState := { s with phrase_time := some now, data_queue := res.2 }
    match res.1 with
    | none => s1
    | some audio_data =>
      if audio_data.isEmpty then
        s1
      else
        match transcribe audio_data with
        | Except.error _ => { s1 with logged_errors := s1.logged_errors + 1 }
        | Except.ok raw =>
          let text := python_strip raw
          if text = "" then
            s1
          else
            let final_text := format text
            if complete then
              { s1 with transcription := s1.transcription ++ [final_text] }
            else
              { s1 with transcription := s1.transcription.dropLast ++ [final_text] }

/-- The string written to the output file (lines 253-254 and 279-280):
`'\n'.join(line for line in transcription if line.strip())`.  A line is kept
when stripping its whitespace leaves it non-empty. -/
def file_sink_content (transcription : List String) : String :=
  String.intercalate "\n" (transcription.filter (fun line => !(python_strip line == "")))

/-- Embedding of the per-update file write (lines 251-256): `open(path, 'w')`
truncates, so the previous file contents are discarded whatever they were. -/
def write_output_file_update (_old_contents : Option String)
    (transcription : List String) : Option String :=
  some (file_sink_content transcription)

/-- Embedding of the final file write at shutdown (lines 277-283); same
truncating open and the same joined non-blank lines. -/
def write_output_file_final (_old_contents : Option String)
    (transcription : List String) : Option String :=
  some (file_sink_content transcription)

/-- The externally visible startup actions of `main` (lines 146-204), in
source order. -/
inductive StartupEvent where
  | validateArgs
  | setupRecorder
  | resolveMicrophone
  | loadModel
  | adjustAmbientNoise
  | startBackgroundListening
  | runMainLoop
deriving DecidableEq

/-- Embedding of the startup control flow of `main` (lines 146-206): the list of
startup actions performed in order, and `some code` when the process exits early
via `sys.exit(code)`. Validation runs first; on `ValueError` the handler logs and
exits with status 1 before the recorder, microphone, model or background thread
are touched.  Microphone, model and ambient-noise failures are parameters since
they depend on external hardware and libraries. -/
def main_startup (args : Args) (micOk modelOk ambientOk : Bool) :
    List StartupEvent × Option ℕ :=
  match validate_arguments args with
  | Except.error _ => ([StartupEvent.validateArgs], some 1)
  | Except.ok _ =>
    if micOk = false then
      ([StartupEvent.validateArgs, StartupEvent.setupRecorder,
        StartupEvent.resolveMicrophone], some 1)
    else if modelOk = false then
      ([StartupEvent.validateArgs, StartupEvent.setupRecorder,
        StartupEvent.resolveMicrophone, StartupEvent.loadModel], some 1)
    else if ambientOk = false then
      ([StartupEvent.validateArgs, StartupEvent.setupRecorder,
        StartupEvent.resolveMicrophone, StartupEvent.loadModel,
        StartupEvent.adjustAmbientNoise], some 1)
    else
      ([StartupEvent.validateArgs, StartupEvent.setupRecorder,
        StartupEvent.resolveMicrophone, StartupEvent.loadModel,
        StartupEvent.adjustAmbientNoise, StartupEvent.startBackgroundListening,
        StartupEvent.runMainLoop], none)

/-- Concrete transcription oracle used by witnesses: always recognizes "hi". -/
def demoTranscribe : Bytes → Except String String :=
  fun _ => Except.ok "hi"

/-- Concrete transcription oracle used by witnesses: always raises. -/
def failTranscribe : Bytes → Except String String :=
  fun _ => Except.error "model failure"

-- Helper lemmas about the queue drain

theorem drainLoop_eq (q acc : List Bytes) : drainLoop q acc = (acc ++ q, []) := by
  induction q generalizing acc with
  | nil => simp [drainLoop]
  | cons c rest ih => simp [drainLoop, ih]

theorem process_audio_queue_eq (q : List Bytes) :
    process_audio_queue q = (if q = [] then none else some q.flatten, []) := by
  cases q with
  | nil => rfl
  | cons c rest => simp [process_audio_queue, drainLoop_eq]

-- Helper lemmas about validation

theorem validate_ok_iff (a : Args) :
    validate_arguments a = Except.ok () ↔
      ¬(a.energy_threshold < 0 ∨ a.record_timeout ≤ 0 ∨ a.phrase_timeout ≤ 0) := by
  unfold validate_arguments
  split_ifs with h1 h2 h3
  · simp [h1]
  · simp [h1, h2]
  · simp [h1, h2, h3]
  · simp [h1, h2, h3]

theorem validate_error_of (a : Args)
    (h : a.energy_threshold < 0 ∨ a.record_timeout ≤ 0 ∨ a.phrase_timeout ≤ 0) :
    ∃ m, validate_arguments a = Except.error m := by
  unfold validate_arguments
  split_ifs with h1 h2 h3
  · exact ⟨_, rfl⟩
  · exact ⟨_, rfl⟩
  · exact ⟨_, rfl⟩
  · rcases h with h | h | h
    · exact absurd h h1
    · exact absurd h h2
    · exact absurd h h3

-- Claim theorems

/-- C2: one call to `process_audio_queue` returns the concatenation of all
chunks enqueued at call time, in FIFO push order, and leaves the queue empty
afterwards; called on an empty queue it returns `none` (Python `None`), never an
empty byte buffer.  In particular queueing `b"AA"` then `b"BB"` and draining
yields `b"AABB"`, and a second drain with no new pushes yields `none`. -/
theorem drain_concatenation (q : List Bytes) :
    (process_audio_queue q).2 = [] ∧
    (q = [] → (process_audio_queue q).1 = none) ∧
    (q ≠ [] → (process_audio_queue q).1 = some q.flatten) ∧
    (process_audio_queue [[0x41, 0x41], [0x42, 0x42]]).1 =
      some [0x41, 0x41, 0x42, 0x42] ∧
    (process_audio_queue (process_audio_queue [[0x41, 0x41], [0x42, 0x42]]).2).1 =
      none := by
  refine ⟨?_, ?_, ?_, by decide, by decide⟩
  · simp [process_audio_queue_eq]
  · intro h
    simp [process_audio_queue_eq, h]
  · intro h
    simp [process_audio_queue_eq, h]

/-- Witness for C2 at the spec's concrete scenario: `[b"AA", b"BB"]`. -/
theorem drain_concatenation_witness :
    (process_audio_queue [[0x41, 0x41], [0x42, 0x42]]).1 =
      some (([[0x41, 0x41], [0x42, 0x42]] : List Bytes).flatten) :=
  (drain_concatenation [[0x41, 0x41], [0x42, 0x42]]).2.2.1 (by decide)

/-- C10: `process_audio_queue` returns `none` exactly when zero chunks were
drained (the queue was empty); a non-empty queue whose chunks are all empty
byte strings yields `some b""`, not `none`. -/
theorem drain_none_iff_nothing_drained (q : List Bytes) :
    ((process_audio_queue q).1 = none ↔ q = []) ∧
    (q ≠ [] → (∀ c ∈ q, c = ([] : Bytes)) →
      (process_audio_queue q).1 = some ([] : Bytes)) := by
  constructor
  · by_cases h : q = [] <;> simp [process_audio_queue_eq, h]
  · intro hne hall
    simp [process_audio_queue_eq, hne]
    exact fun l hl => hall l hl

/-- Witness for C10: a queue holding one empty chunk drains to `some b""`. -/
theorem drain_none_iff_nothing_drained_witness :
    (process_audio_queue [([] : Bytes)]).1 = some ([] : Bytes) :=
  (drain_none_iff_nothing_drained [([] : Bytes)]).2 (by decide) (by decide)

/-- C3: `validate_arguments` raises exactly when the energy threshold is
negative, the record timeout is non-positive, or the phrase timeout is
non-positive; with `energy_threshold = -1` the message contains
"Energy threshold must be non-negative", and with `record_timeout = 0` (and the
earlier energy check passing) it contains "Record timeout must be positive".
Valid configurations raise nothing. -/
theorem validate_arguments_characterization (a : Args) :
    (validate_arguments a = Except.ok () ↔
      ¬(a.energy_threshold < 0 ∨ a.record_timeout ≤ 0 ∨ a.phrase_timeout ≤ 0)) ∧
    ((∃ m, validate_arguments a = Except.error m) ↔
      (a.energy_threshold < 0 ∨ a.record_timeout ≤ 0 ∨ a.phrase_timeout ≤ 0)) ∧
    (a.energy_threshold = -1 →
      contains_message (validate_arguments a) "Energy threshold must be non-negative") ∧
    (a.record_timeout = 0 → 0 ≤ a.energy_threshold →
      contains_message (validate_arguments a) "Record timeout must be positive") := by
  refine ⟨validate_ok_iff a, ⟨?_, validate_error_of a⟩, ?_, ?_⟩
  · rintro ⟨m, hm⟩
    by_contra hn
    rw [(validate_ok_iff a).2 hn] at hm
    exact absurd hm (by simp)
  · intro h
    unfold contains_message validate_arguments
    rw [if_pos (by omega)]
    exact ⟨_, rfl, List.infix_refl _⟩
  · intro h h0
    unfold contains_message validate_arguments
    rw [if_neg (by omega), if_pos h.le]
    exact ⟨_, rfl, List.infix_refl _⟩

/-- Witness for C3 at the spec's concrete scenarios: `energy_threshold = -1`
and `record_timeout = 0` (with the other fields valid). -/
theorem validate_arguments_characterization_witness :
    contains_message (validate_arguments ⟨-1, 2, 3⟩)
      "Energy threshold must be non-negative" ∧
    contains_message (validate_arguments ⟨1000, 0, 3⟩)
      "Record timeout must be positive" ∧
    validate_arguments ⟨1000, 2, 3⟩ = Except.ok () :=
  ⟨(validate_arguments_characterization ⟨-1, 2, 3⟩).2.2.1 rfl,
   (validate_arguments_characterization ⟨1000, 0, 3⟩).2.2.2 rfl (by norm_num),
   (validate_arguments_characterization ⟨1000, 2, 3⟩).1.2 (by norm_num)⟩

/-- C9: `load_whisper_model` resolves the model name by appending ".en" when
the name is not "large" and the `non_english` flag is false, and loads the name
unchanged otherwise. -/
theorem model_name_resolution (model_name : String) (non_english : Bool) :
    (model_name ≠ "large" → non_english = false →
      load_whisper_model_name model_name non_english = model_name ++ ".en") ∧
    (model_name = "large" →
      load_whisper_model_name model_name non_english = model_name) ∧
    (non_english = true →
      load_whisper_model_name model_name non_english = model_name) := by
  unfold load_whisper_model_name
  split_ifs with h
  · refine ⟨fun _ _ => rfl, fun hl => (h.1 hl).elim, fun ht => ?_⟩
    rw [ht] at h
    exact absurd h.2 (by decide)
  · push_neg at h
    exact ⟨fun h1 h2 => absurd h2 (h h1), fun _ => rfl, fun _ => rfl⟩

/-- Witness for C9 at the default configuration: model "medium", English. -/
theorem model_name_resolution_witness :
    load_whisper_model_name "medium" false = "medium" ++ ".en" ∧
    load_whisper_model_name "large" false = "large" ∧
    load_whisper_model_name "medium" true = "medium" :=
  ⟨(model_name_resolution "medium" false).1 (by decide) rfl,
   (model_name_resolution "large" false).2.1 rfl,
   (model_name_resolution "medium" true).2.2 rfl⟩

/-- C8: when the console-clear subprocess fails, `clear_console` makes exactly
one fallback `print` call, whose argument is exactly
`CONSOLE_CLEAR_FALLBACK_LINES = 50` newline characters; when the subprocess
succeeds nothing is printed. -/
theorem clear_console_fallback (isWindowsNT : Bool) :
    (clear_console isWindowsNT false).print_calls =
      [String.mk (List.replicate CONSOLE_CLEAR_FALLBACK_LINES (Char.ofNat 10))] ∧
    (clear_console isWindowsNT false).print_calls.length = 1 ∧
    (String.mk (List.replicate CONSOLE_CLEAR_FALLBACK_LINES (Char.ofNat 10))).data.length
      = 50 ∧
    (String.mk (List.replicate CONSOLE_CLEAR_FALLBACK_LINES (Char.ofNat 10))).data.all
      (fun c => c == Char.ofNat 10) = true ∧
    (clear_console isWindowsNT true).print_calls = [] :=
  ⟨rfl, rfl, by decide, by decide, rfl⟩

/-- C5: both the per-update file write and the final write at shutdown replace
the file contents (whatever they were) with exactly the non-blank transcript
lines joined by newlines; blank lines never affect the output.  The transcript
`["", "hello", "world"]` produces file contents `"hello\nworld"`. -/
theorem file_sink_overwrite_nonblank (old1 old2 : Option String) (tr : List String) :
    write_output_file_update old1 tr = write_output_file_final old2 tr ∧
    write_output_file_update old1 tr =
      some (String.intercalate "\n"
        (tr.filter (fun line => !(python_strip line == "")))) ∧
    write_output_file_update old1
        (tr.filter (fun line => !(python_strip line == ""))) =
      write_output_file_update old1 tr ∧
    write_output_file_update (some "stale contents") ["", "hello", "world"] =
      some "hello\nworld" ∧
    write_output_file_final none ["", "hello", "world"] = some "hello\nworld" := by
  refine ⟨rfl, rfl, ?_, by decide, by decide⟩
  unfold write_output_file_update file_sink_content
  rw [List.filter_filter]
  simp

-- Helper lemmas about the main loop step

theorem isEmpty_false_of_ne_nil {l : List Bytes} (h : l ≠ []) : l.isEmpty = false := by
  cases l with
  | nil => exact absurd rfl h
  | cons c rest => rfl

/-- Shape of one successful iteration: non-empty queue, non-empty drained audio,
transcription succeeds, stripped text non-empty. -/
theorem mainLoopStep_ok_shape (phrase_timeout : ℚ)
    (transcribe : Bytes → Except String String) (format : String → String)
    (now : ℚ) (s : LoopState) (raw : String)
    (hq : s.data_queue ≠ [])
    (hjoin : s.data_queue.flatten.isEmpty = false)
    (htr : transcribe s.data_queue.flatten = Except.ok raw)
    (htext : python_strip raw ≠ "") :
    mainLoopStep phrase_timeout transcribe format now s =
      { phrase_time := some now
        data_queue := []
        transcription :=
          if phrase_complete_decision s.phrase_time now phrase_timeout then
            s.transcription ++ [format (python_strip raw)]
          else
            s.transcription.dropLast ++ [format (python_strip raw)]
        logged_errors := s.logged_errors } := by
  obtain ⟨pt, dq, tr, le⟩ := s
  dsimp only at hq hjoin htr ⊢
  unfold mainLoopStep
  dsimp only
  rw [isEmpty_false_of_ne_nil hq]
  simp only [Bool.false_eq_true, if_false, process_audio_queue_eq, if_neg hq]
  rw [hjoin, htr]
  simp only [Bool.false_eq_true, if_false, if_neg htext]
  split <;> rfl

/-- Shape of an iteration whose transcription call raises: the handler of line
263 logs the error and the loop continues with the transcript untouched. -/
theorem mainLoopStep_error_shape (phrase_timeout : ℚ)
    (transcribe : Bytes → Except String String) (format : String → String)
    (now : ℚ) (s : LoopState) (msg : String)
    (hq : s.data_queue ≠ [])
    (hjoin : s.data_queue.flatten.isEmpty = false)
    (htr : transcribe s.data_queue.flatten = Except.error msg) :
    mainLoopStep phrase_timeout transcribe format now s =
      { phrase_time := some now
        data_queue := []
        transcription := s.transcription
        logged_errors := s.logged_errors + 1 } := by
  obtain ⟨pt, dq, tr, le⟩ := s
  dsimp only at hq hjoin htr ⊢
  unfold mainLoopStep
  dsimp only
  rw [isEmpty_false_of_ne_nil hq]
  simp only [Bool.false_eq_true, if_false, process_audio_queue_eq, if_neg hq]
  rw [hjoin, htr]
  simp only [Bool.false_eq_true, if_false]

/-- An iteration that found the queue empty changes nothing (the loop sleeps). -/
theorem mainLoopStep_empty_queue (phrase_timeout : ℚ)
    (transcribe : Bytes → Except String String) (format : String → String)
    (now : ℚ) (s : LoopState) (hq : s.data_queue = []) :
    mainLoopStep phrase_timeout transcribe format now s = s := by
  obtain ⟨pt, dq, tr, le⟩ := s
  dsimp only at hq
  subst hq
  rfl

/-- Every iteration leaves the transcript unchanged, appends one line, or
replaces the last line. -/
theorem mainLoopStep_transcription_cases (phrase_timeout : ℚ)
    (transcribe : Bytes → Except String String) (format : String → String)
    (now : ℚ) (s : LoopState) :
    (mainLoopStep phrase_timeout transcribe format now s).transcription =
        s.transcription ∨
    (∃ t, (mainLoopStep phrase_timeout transcribe format now s).transcription =
        s.transcription ++ [t]) ∨
    (∃ t, (mainLoopStep phrase_timeout transcribe format now s).transcription =
        s.transcription.dropLast ++ [t]) := by
  simp only [mainLoopStep]
  split
  · left; rfl
  · split
    · left; rfl
    · split
      · left; rfl
      · split
        · left; rfl
        · split
          · left; rfl
          · split
            · right; left; exact ⟨_, rfl⟩
            · right; right; exact ⟨_, rfl⟩

/-- C1 counterexample: the claim says a boundary is declared when the previous
timestamp is absent, but the code's decision (lines 212-216) declares no
boundary then — `phrase_complete` stays `False` when `phrase_time` is `None` —
so on the first non-empty poll the text replaces the placeholder line instead
of being appended as a new line. -/
theorem phrase_boundary_counterexample :
    claimed_phrase_boundary none 5 3 = true ∧
    phrase_complete_decision none 5 3 = false ∧
    (mainLoopStep 3 demoTranscribe id 5
      { phrase_time := none, data_queue := [[1]], transcription := [""],
        logged_errors := 0 }).transcription = ["hi"] ∧
    (mainLoopStep 3 demoTranscribe id 5
      { phrase_time := none, data_queue := [[1]], transcription := [""],
        logged_errors := 0 }).transcription ≠ ["", "hi"] := by
  refine ⟨rfl, rfl, by decide, by decide⟩

/-- C1 (amended): for every poll iteration in which the queue has data (and the
drained audio, transcription and stripped text are non-trivial so that an update
happens), the phrase-boundary decision is the deterministic function
`phrase_complete_decision` of (previous-timestamp, current-timestamp,
gap-threshold), and a boundary is declared if and only if the previous
timestamp is PRESENT and the elapsed time (current minus previous) exceeds the
gap-threshold; when the previous timestamp is absent no boundary is declared.
On a boundary the new text is appended as a new transcript line, otherwise it
replaces the last line. -/
theorem phrase_boundary_characterization (phrase_timeout : ℚ)
    (transcribe : Bytes → Except String String) (format : String → String)
    (now : ℚ) (s : LoopState) (raw : String)
    (hq : s.data_queue ≠ [])
    (hjoin : s.data_queue.flatten.isEmpty = false)
    (htr : transcribe s.data_queue.flatten = Except.ok raw)
    (htext : python_strip raw ≠ "") :
    (phrase_complete_decision s.phrase_time now phrase_timeout = true ↔
      ∃ t, s.phrase_time = some t ∧ now - t > phrase_timeout) ∧
    (phrase_complete_decision s.phrase_time now phrase_timeout = true →
      (mainLoopStep phrase_timeout transcribe format now s).transcription =
        s.transcription ++ [format (python_strip raw)]) ∧
    (phrase_complete_decision s.phrase_time now phrase_timeout = false →
      (mainLoopStep phrase_timeout transcribe format now s).transcription =
        s.transcription.dropLast ++ [format (python_strip raw)]) := by
  refine ⟨?_, ?_, ?_⟩
  · cases hpt : s.phrase_time with
    | none => simp [phrase_complete_decision]
    | some t => simp [phrase_complete_decision]
  · intro hb
    rw [mainLoopStep_ok_shape phrase_timeout transcribe format now s raw hq hjoin
      htr htext]
    simp [hb]
  · intro hb
    rw [mainLoopStep_ok_shape phrase_timeout transcribe format now s raw hq hjoin
      htr htext]
    simp [hb]

/-- Witness for the amended C1: a first non-empty poll (previous timestamp
absent) replaces the last transcript line. -/
theorem phrase_boundary_characterization_witness :
    (mainLoopStep 3 demoTranscribe id 5
      { phrase_time := none, data_queue := [[2]], transcription := ["old"],
        logged_errors := 0 }).transcription = ["hi"] := by
  rw [(phrase_boundary_characterization 3 demoTranscribe id 5
    { phrase_time := none, data_queue := [[2]], transcription := ["old"],
      logged_errors := 0 } "hi" (by decide) (by decide) rfl (by decide)).2.2 rfl]
  rfl

/-- C6: the transcript starts as a single empty placeholder line and is never
empty: every main-loop iteration leaves it unchanged, appends one new line, or
replaces its last element in place, and its length never decreases. -/
theorem transcript_never_empty :
    initialLoopState.transcription = [""] ∧
    ∀ (phrase_timeout : ℚ) (transcribe : Bytes → Except String String)
      (format : String → String) (now : ℚ) (s : LoopState),
      s.transcription ≠ [] →
      (mainLoopStep phrase_timeout transcribe format now s).transcription ≠ [] ∧
      s.transcription.length ≤
        (mainLoopStep phrase_timeout transcribe format now s).transcription.length ∧
      ((mainLoopStep phrase_timeout transcribe format now s).transcription =
          s.transcription ∨
       (∃ t, (mainLoopStep phrase_timeout transcribe format now s).transcription =
          s.transcription ++ [t]) ∨
       (∃ t, (mainLoopStep phrase_timeout transcribe format now s).transcription =
          s.transcription.dropLast ++ [t])) := by
  refine ⟨rfl, ?_⟩
  intro phrase_timeout transcribe format now s hne
  have hlen : 0 < s.transcription.length := List.length_pos.mpr hne
  rcases mainLoopStep_transcription_cases phrase_timeout transcribe format now s with
    h | ⟨t, h⟩ | ⟨t, h⟩
  · exact ⟨h ▸ hne, by rw [h], Or.inl h⟩
  · refine ⟨?_, ?_, Or.inr (Or.inl ⟨t, h⟩)⟩
    · rw [h]; simp
    · rw [h]; simp
  · refine ⟨?_, ?_, Or.inr (Or.inr ⟨t, h⟩)⟩
    · rw [h]; simp
    · rw [h, List.length_append, List.length_dropLast]
      simp only [List.length_singleton]
      omega

/-- Witness for C6 at the initial state (empty queue: the iteration idles). -/
theorem transcript_never_empty_witness :
    (mainLoopStep 3 demoTranscribe id 5 initialLoopState).transcription ≠ [] :=
  (transcript_never_empty.2 3 demoTranscribe id 5 initialLoopState (by decide)).1

/-- C7: when the transcription call raises, the error is caught and logged (the
logged-error count increments by one), the loop continues with a well-defined
successor state instead of the process terminating, the transcript is unchanged
by the failed iteration, and the same chunk is not retried: it was already
drained, so the queue is left empty for the next poll. -/
theorem transcribe_error_absorbed (phrase_timeout : ℚ)
    (transcribe : Bytes → Except String String) (format : String → String)
    (now : ℚ) (s : LoopState) (msg : String)
    (hq : s.data_queue ≠ [])
    (hjoin : s.data_queue.flatten.isEmpty = false)
    (htr : transcribe s.data_queue.flatten = Except.error msg) :
    (mainLoopStep phrase_timeout transcribe format now s).transcription =
      s.transcription ∧
    (mainLoopStep phrase_timeout transcribe format now s).logged_errors =
      s.logged_errors + 1 ∧
    (mainLoopStep phrase_timeout transcribe format now s).data_queue = [] ∧
    (mainLoopStep phrase_timeout transcribe format now s).phrase_time = some now := by
  rw [mainLoopStep_error_shape phrase_timeout transcribe format now s msg hq hjoin htr]
  exact ⟨rfl, rfl, rfl, rfl⟩

/-- Witness for C7: a failing transcription on one chunk leaves the transcript
as it was and logs one error. -/
theorem transcribe_error_absorbed_witness :
    (mainLoopStep 3 failTranscribe id 5
      { phrase_time := none, data_queue := [[3]], transcription := [""],
        logged_errors := 0 }).transcription = [""] ∧
    (mainLoopStep 3 failTranscribe id 5
      { phrase_time := none, data_queue := [[3]], transcription := [""],
        logged_errors := 0 }).logged_errors = 1 :=
  have h := transcribe_error_absorbed 3 failTranscribe id 5
    { phrase_time := none, data_queue := [[3]], transcription := [""],
      logged_errors := 0 } "model failure" (by decide) (by decide) rfl
  ⟨h.1, h.2.1⟩

/-- C4: for every configuration with a negative energy threshold or a
non-positive record or phrase timeout, startup fails validation before any
other side effect — the recorder is not set up, no microphone is resolved, no
model is loaded, no recording starts — and the process exits with status 1. -/
theorem validation_precedes_side_effects (args : Args)
    (micOk modelOk ambientOk : Bool)
    (h : args.energy_threshold < 0 ∨ args.record_timeout ≤ 0 ∨
      args.phrase_timeout ≤ 0) :
    main_startup args micOk modelOk ambientOk =
      ([StartupEvent.validateArgs], some 1) ∧
    StartupEvent.setupRecorder ∉ (main_startup args micOk modelOk ambientOk).1 ∧
    StartupEvent.resolveMicrophone ∉ (main_startup args micOk modelOk ambientOk).1 ∧
    StartupEvent.loadModel ∉ (main_startup args micOk modelOk ambientOk).1 ∧
    StartupEvent.startBackgroundListening ∉
      (main_startup args micOk modelOk ambientOk).1 ∧
    (main_startup args micOk modelOk ambientOk).2 = some 1 := by
  obtain ⟨m, hm⟩ := validate_error_of args h
  have heq : main_startup args micOk modelOk ambientOk =
      ([StartupEvent.validateArgs], some 1) := by
    unfold main_startup
    rw [hm]
  rw [heq]
  refine ⟨rfl, ?_, ?_, ?_, ?_, rfl⟩ <;> decide

/-- Witness for C4 at the spec's failing configuration `energy_threshold = -1`. -/
theorem validation_precedes_side_effects_witness :
    main_startup ⟨-1, 2, 3⟩ true true true =
      ([StartupEvent.validateArgs], some 1) :=
  (validation_precedes_side_effects ⟨-1, 2, 3⟩ true true true
    (Or.inl (by decide))).1
